import Mathlib

/-!
Shallow embedding of the v0 language-model chat provider adapter
(`src/provider.ts`): the message translator (`convertMessages`,
`processV0Response`, `extractTextFromMessage`), the request dispatcher
(`makeV0Request`, `convertToolsToV0Format`, `convertToolMode`), the
capability listing (`provideLanguageModelChatInformation`), the token
estimator (`provideTokenCount`) and the generation entry point
(`provideLanguageModelChatResponse`).

Modelling conventions:
* JSON values are an inductive `Json`; the platform primitive
  `JSON.parse` is a parameter `parse : String → Option Json`
  (`none` models a thrown `SyntaxError`), while `JSON.stringify`
  is modelled by the executable serializer `Json.serialize`.
* Host message content parts (`LanguageModelTextPart`,
  `LanguageModelToolCallPart`, `LanguageModelToolResultPart`) are the
  inductive `ChatPart`; the source discriminates a text part by the
  presence of a string `value` field and the other two by `instanceof`.
* JavaScript optional fields are `Option`; a JS string-falsiness test
  (`if (!apiKey)`, `if (toolCallId)`, `if (message.content)`) becomes a
  test against `none` / the empty string.
* The effectful parts (secret read, `fetch`, `progress.report`) are made
  explicit: the stored key and the HTTP exchange outcome are inputs, the
  reported response parts are the returned list, and a thrown `Error`
  is an `Except.error`.
-/

/-- JSON values, as produced by the platform JSON parser. -/
inductive Json where
  | null : Json
  | bool (b : Bool) : Json
  | num (n : Int) : Json
  | str (s : String) : Json
  | arr (elems : List Json) : Json
  | obj (fields : List (String × Json)) : Json
deriving Repr

mutual

/-- Model of `JSON.stringify` on `Json` values (string escaping elided:
no claim depends on the serialized text). -/
def Json.serialize : Json → String
  | .null => "null"
  | .bool true => "true"
  | .bool false => "false"
  | .num n => toString n
  | .str s => "\"" ++ s ++ "\""
  | .arr elems => "[" ++ Json.serializeElems elems ++ "]"
  | .obj fields => "\x7b" ++ Json.serializeFields fields ++ "\x7d"

/-- Comma-separated serialization of a JSON array's elements. -/
def Json.serializeElems : List Json → String
  | [] => ""
  | [x] => x.serialize
  | x :: y :: rest => x.serialize ++ "," ++ Json.serializeElems (y :: rest)

/-- Comma-separated serialization of a JSON object's fields. -/
def Json.serializeFields : List (String × Json) → String
  | [] => ""
  | [(k, v)] => "\"" ++ k ++ "\":" ++ v.serialize
  | (k, v) :: f :: rest =>
      "\"" ++ k ++ "\":" ++ v.serialize ++ "," ++ Json.serializeFields (f :: rest)

end

/-- A chunk of a `LanguageModelToolResultPart`'s `content` array: the
source keeps exactly the chunks that carry a `value` field
(`'value' in resultPart`) and reads that field. -/
inductive ToolResultChunk where
  | withValue (value : String) : ToolResultChunk
  | withoutValue : ToolResultChunk
deriving Repr, DecidableEq

/-- A content part of a host `LanguageModelChatMessage`: a text part
(an object with a string `value`), a `LanguageModelToolCallPart`
(`callId`, `name`, structured `input`), or a
`LanguageModelToolResultPart` (`callId`, `content` chunks). -/
inductive ChatPart where
  | text (value : String) : ChatPart
  | toolCall (callId : String) (name : String) (input : Json) : ChatPart
  | toolResult (callId : String) (content : List ToolResultChunk) : ChatPart
deriving Repr

/-- A host `LanguageModelChatMessage`: a numeric role
(`LanguageModelChatMessageRole.User = 1`, `Assistant = 2`; the host
enumeration is numeric, so any `Nat` can appear) and ordered content
parts. -/
structure ChatMessage where
  role : Nat
  content : List ChatPart
deriving Repr

/-- The remote role literals of `V0ChatMessage.role`. -/
inductive V0Role where
  | user : V0Role
  | assistant : V0Role
  | system : V0Role
deriving Repr, DecidableEq

/-- The `function` payload of a `V0ToolCall`. -/
structure V0Function where
  name : String
  arguments : String
deriving Repr, DecidableEq

/-- A remote tool-call record (`V0ToolCall`): id, kind tag, function
payload.  The source always writes the tag `"function"`, but responses
are unvalidated JSON, so the tag is an arbitrary string here. -/
structure V0ToolCall where
  id : String
  type : String
  function : V0Function
deriving Repr, DecidableEq

/-- A remote chat message (`V0ChatMessage`).  `tool_calls` and
`tool_call_id` are optional fields, set only under the source's
truthiness guards. -/
structure V0ChatMessage where
  role : V0Role
  content : String
  tool_calls : Option (List V0ToolCall) := none
  tool_call_id : Option String := none
deriving Repr, DecidableEq

/-- A host `LanguageModelChatTool`: name, description, optional input
schema (`inputSchema` may be `undefined`). -/
structure LMChatTool where
  name : String
  description : String
  inputSchema : Option Json
deriving Repr

/-- The `function` payload of a translated `V0Tool`. -/
structure V0ToolFunction where
  name : String
  description : Option String
  parameters : Json
deriving Repr

/-- A translated remote tool declaration (`V0Tool`). -/
structure V0Tool where
  type : String
  function : V0ToolFunction
deriving Repr

/-- The JSON request body built by `makeV0Request` (`V0ChatRequest`).
`tools` and `tool_choice` are optional fields, present only when set. -/
structure V0ChatRequest where
  model : String
  messages : List V0ChatMessage
  max_completion_tokens : Nat
  tools : Option (List V0Tool) := none
  tool_choice : Option String := none
deriving Repr

/-- The `message` object of a remote response choice: `content` string
and optional `tool_calls`. -/
structure V0RespMessage where
  content : String
  tool_calls : Option (List V0ToolCall) := none
deriving Repr, DecidableEq

/-- One element of the remote response's `choices` array.  The response
JSON is unvalidated, so `message` may be absent/null (falsy). -/
structure V0Choice where
  message : Option V0RespMessage
deriving Repr, DecidableEq

/-- The parsed body of a successful remote response (`V0ChatResponse`).
`choices` may be absent in unvalidated JSON. -/
structure V0RespBody where
  choices : Option (List V0Choice)
deriving Repr, DecidableEq

/-- The outcome of the single `fetch` call: HTTP status, status text,
the body read as text (used on the error path), and the body parsed as
JSON (used on the success path; `none` models a `null` JSON body). -/
structure HttpResponse where
  status : Nat
  statusText : String
  bodyText : String
  body : Option V0RespBody
deriving Repr, DecidableEq

/-- `Response.ok` of the fetch API: status in the inclusive range
200-299. -/
def HttpResponse.ok (r : HttpResponse) : Bool :=
  decide (200 ≤ r.status) && decide (r.status ≤ 299)

/-- The `Error` thrown by `makeV0Request` on a non-success HTTP status,
carrying the status, status text and response body text. -/
structure RequestError where
  status : Nat
  statusText : String
  bodyText : String
deriving Repr, DecidableEq

/-- The thrown error's `message` string:
`v0 API request failed: ${status} ${statusText} - ${errorText}`. -/
def RequestError.message (e : RequestError) : String :=
  "v0 API request failed: " ++ toString e.status ++ " " ++ e.statusText
    ++ " - " ++ e.bodyText

/-- A host `LanguageModelResponsePart` reported through the progress
sink: a `LanguageModelTextPart` or a `LanguageModelToolCallPart`. -/
inductive ResponsePart where
  | text (value : String) : ResponsePart
  | toolCall (callId : String) (name : String) (input : Json) : ResponsePart
deriving Repr

/-- A host model descriptor (`LanguageModelChatInformation`), with the
two capability flags inlined. -/
structure LanguageModelChatInformation where
  id : String
  name : String
  tooltip : String
  family : String
  maxInputTokens : Nat
  maxOutputTokens : Nat
  version : String
  toolCalling : Bool
  imageInput : Bool
deriving Repr, DecidableEq

/-- `getV0ModelInfo`: builds one static model descriptor. -/
def getV0ModelInfo (id name description : String)
    (maxInputTokens maxOutputTokens : Nat) : LanguageModelChatInformation :=
  { id := id
    name := name
    tooltip := "v0 " ++ name ++ " - " ++ description
    family := "v0"
    maxInputTokens := maxInputTokens
    maxOutputTokens := maxOutputTokens
    version := "1.5.0"
    toolCalling := true
    imageInput := true }

/-- JavaScript falsiness of the secret-store lookup result
(`string | undefined`): `undefined` and the empty string are falsy. -/
def keyMissing : Option String → Bool
  | none => true
  | some k => k.isEmpty

/-- `provideLanguageModelChatInformation`.  The secret-store reads and
the interactive prompt are effects, made explicit as inputs: `stored`
is the key before the call, `keyAfterPrompt` the key a second lookup
finds after `promptForApiKey` ran (only consulted on the non-silent
missing-key path). -/
def provideLanguageModelChatInformation (silent : Bool)
    (stored keyAfterPrompt : Option String) :
    List LanguageModelChatInformation :=
  let models :=
    [getV0ModelInfo "v0-1.5-md" "v0-1.5-md"
      "For everyday tasks and UI generation" 128000 64000,
     getV0ModelInfo "v0-1.5-lg" "v0-1.5-lg"
      "For advanced thinking or reasoning" 512000 64000]
  if keyMissing stored then
    if silent then []
    else if keyMissing keyAfterPrompt then []
    else models
  else models

/-- The accumulator of `convertMessages`' per-message part loop:
`textParts`, `toolCalls`, and the `toolCallId` variable. -/
structure ConvState where
  textParts : List String
  toolCalls : List V0ToolCall
  toolCallId : Option String
deriving Repr, DecidableEq

/-- The text chunks a tool-result part contributes: the source filters
the result's content to the chunks carrying a `value` field and maps
out that field. -/
def resultTexts (content : List ToolResultChunk) : List String :=
  content.filterMap fun c =>
    match c with
    | .withValue v => some v
    | .withoutValue => none

/-- One iteration of `convertMessages`' `for (const part of msg.content)`
loop, updating the accumulator. -/
def processPart (st : ConvState) (part : ChatPart) : ConvState :=
  match part with
  | .text v => { st with textParts := st.textParts ++ [v] }
  | .toolCall callId name input =>
      { st with toolCalls :=
          st.toolCalls ++ [⟨callId, "function", ⟨name, Json.serialize input⟩⟩] }
  | .toolResult callId content =>
      { st with
          toolCallId := some callId
          textParts := st.textParts ++ resultTexts content }

/-- The per-message body of `convertMessages`: role mapping
(`msg.role === 1 ? 'user' : 'assistant'`), the part loop, then the
conditional assignments of `content`, `tool_calls` (only when
`toolCalls.length > 0`) and `tool_call_id` (only when the `toolCallId`
variable is truthy, i.e. defined and non-empty). -/
def convertMessage (msg : ChatMessage) : V0ChatMessage :=
  let role := if msg.role = 1 then V0Role.user else V0Role.assistant
  let st := msg.content.foldl processPart ⟨[], [], none⟩
  { role := role
    content := String.join st.textParts
    tool_calls := if 0 < st.toolCalls.length then some st.toolCalls else none
    tool_call_id :=
      match st.toolCallId with
      | some tid => if tid.isEmpty then none else some tid
      | none => none }

/-- `convertMessages`: `messages.map(...)`. -/
def convertMessages (messages : List ChatMessage) : List V0ChatMessage :=
  messages.map convertMessage

/-- The response parts one remote tool-call record yields in
`processV0Response`: nothing unless its kind tag is `"function"`;
otherwise one tool-call part whose input is the JSON-parse of the
arguments string, falling back to `{ arguments: <raw string> }` when
the parse throws. -/
def processToolCall (parse : String → Option Json) (tc : V0ToolCall) :
    List ResponsePart :=
  if tc.type = "function" then
    match parse tc.function.arguments with
    | some input => [.toolCall tc.id tc.function.name input]
    | none =>
        [.toolCall tc.id tc.function.name
          (Json.obj [("arguments", Json.str tc.function.arguments)])]
  else []

/-- `processV0Response`: reports the text content when truthy
(non-empty), then iterates the tool calls when the list is present and
non-empty.  The returned list is the sequence of reported parts. -/
def processV0Response (parse : String → Option Json)
    (message : V0RespMessage) : List ResponsePart :=
  (if message.content = "" then [] else [.text message.content]) ++
  (match message.tool_calls with
   | some tcs =>
       if 0 < tcs.length then (tcs.map (processToolCall parse)).flatten else []
   | none => [])

/-- `extractTextFromMessage`: keeps the content parts carrying a
`value` field (the text parts), maps out the values and joins them. -/
def extractTextFromMessage (message : ChatMessage) : String :=
  String.join (message.content.filterMap fun part =>
    match part with
    | .text v => some v
    | _ => none)

/-- `provideTokenCount`: `Math.ceil(textContent.length / 4)`, which on
naturals is `(length + 3) / 4`. -/
def provideTokenCount (text : String ⊕ ChatMessage) : Nat :=
  let textContent :=
    match text with
    | Sum.inl s => s
    | Sum.inr m => extractTextFromMessage m
  (textContent.length + 3) / 4

/-- `convertToolsToV0Format`: wraps each host tool as a
`"function"`-typed remote tool; a missing `inputSchema` falls back to
the empty object (`tool.inputSchema || {}`). -/
def convertToolsToV0Format (tools : List LMChatTool) : List V0Tool :=
  tools.map fun tool =>
    { type := "function"
      function :=
        { name := tool.name
          description := some tool.description
          parameters := tool.inputSchema.getD (Json.obj []) } }

/-- The numeric value of the host enum member
`LanguageModelChatToolMode.Auto`. -/
def ToolModeAuto : Nat := 1

/-- The numeric value of the host enum member
`LanguageModelChatToolMode.Required`. -/
def ToolModeRequired : Nat := 2

/-- `convertToolMode`: `switch` on the numeric enum, with default case
`'auto'`. -/
def convertToolMode (toolMode : Nat) : String :=
  if toolMode = ToolModeAuto then "auto"
  else if toolMode = ToolModeRequired then "required"
  else "auto"

/-- The request body `makeV0Request` builds: model id, messages, the
fixed `max_completion_tokens: 64_000` ceiling, and — only when a tool
list is supplied and non-empty (`tools && tools.length > 0`) — the
translated tools and the tool-choice directive. -/
def makeV0RequestBody (modelId : String) (messages : List V0ChatMessage)
    (tools : Option (List LMChatTool)) (toolMode : Nat) : V0ChatRequest :=
  let base : V0ChatRequest :=
    { model := modelId
      messages := messages
      max_completion_tokens := 64000 }
  match tools with
  | some ts =>
      if 0 < ts.length then
        { base with
            tools := some (convertToolsToV0Format ts)
            tool_choice := some (convertToolMode toolMode) }
      else base
  | none => base

/-- `makeV0Request`, with the `fetch` outcome `http` explicit: builds
the request body, then — the dispatched POST carrying that body — on a
non-success status throws a `RequestError` built from the status,
status text and body text read from the response, and on success
returns the parsed JSON body as-is.  The first component is the body
sent, the second the call's outcome. -/
def makeV0Request (modelId : String) (messages : List V0ChatMessage)
    (tools : Option (List LMChatTool)) (toolMode : Nat)
    (http : HttpResponse) :
    V0ChatRequest × Except RequestError (Option V0RespBody) :=
  (makeV0RequestBody modelId messages tools toolMode,
   if http.ok then Except.ok http.body
   else Except.error ⟨http.status, http.statusText, http.bodyText⟩)

/-- `provideLanguageModelChatResponse`, with the effects explicit:
`apiKey` is the secret-store lookup, `http` the outcome of the single
`fetch`, and the result the list of parts reported through the
progress sink.  Mirrors the source's missing-key early return, the
`try`/`catch` that converts a thrown error into a single
`Error: ${message}` text part, and the truthiness checks on the parsed
response (`response && response.choices && response.choices.length > 0`,
then `message`). -/
def provideLanguageModelChatResponse (apiKey : Option String)
    (modelId : String) (messages : List ChatMessage)
    (tools : Option (List LMChatTool)) (toolMode : Nat)
    (parse : String → Option Json) (http : HttpResponse) :
    List ResponsePart :=
  if keyMissing apiKey then
    [.text ("Error: v0 API key not configured. Please run the "
      ++ "\x27Manage v0 API Key\x27 command.")]
  else
    match (makeV0Request modelId (convertMessages messages) tools toolMode
        http).2 with
    | .error e => [.text ("Error: " ++ e.message)]
    | .ok respBody =>
        match respBody with
        | some body =>
            match body.choices with
            | some (c :: _) =>
                match c.message with
                | some message => processV0Response parse message
                | none => [.text "Error: No response message from v0 API"]
            | some [] => [.text "Error: No response from v0 API"]
            | none => [.text "Error: No response from v0 API"]
        | none => [.text "Error: No response from v0 API"]

/-!
Observation functions used to state the claims: per-part text
contributions, per-part tool-call records, per-part tool-result ids,
and projections of reported response parts.
-/

/-- The text strings a single content part pushes onto `textParts`:
a text part pushes its value, a tool-call part pushes nothing, a
tool-result part pushes its value-carrying chunks' values. -/
def partTexts : ChatPart → List String
  | .text v => [v]
  | .toolCall _ _ _ => []
  | .toolResult _ content => resultTexts content

/-- The remote tool-call records a single content part contributes. -/
def partToolCalls : ChatPart → List V0ToolCall
  | .toolCall callId name input =>
      [⟨callId, "function", ⟨name, Json.serialize input⟩⟩]
  | _ => []

/-- The tool-result call id a single content part carries, if any. -/
def partResultId : ChatPart → Option String
  | .toolResult callId _ => some callId
  | _ => none

/-- Projection of a reported part to its text value, if it is a text
part. -/
def textValues : ResponsePart → Option String
  | .text v => some v
  | _ => none

/-- Projection of a reported part to its `(callId, name, input)`
triple, if it is a tool-call part. -/
def toolCallTriple : ResponsePart → Option (String × String × Json)
  | .toolCall callId name input => some (callId, name, input)
  | _ => none

/-- The character count of the text the token estimator measures. -/
def extractedLen : String ⊕ ChatMessage → Nat
  | Sum.inl s => s.length
  | Sum.inr m => (extractTextFromMessage m).length

/-- Characterization of the `convertMessages` part loop: the
accumulator after folding a part list collects the per-part text
contributions and tool-call records in order, and the `toolCallId`
variable holds the last tool-result call id seen (or its prior
value). -/
theorem foldl_processPart (parts : List ChatPart) (st : ConvState) :
    (parts.foldl processPart st).textParts
        = st.textParts ++ (parts.map partTexts).flatten ∧
    (parts.foldl processPart st).toolCalls
        = st.toolCalls ++ (parts.map partToolCalls).flatten ∧
    (parts.foldl processPart st).toolCallId
        = (match (parts.filterMap partResultId).getLast? with
           | some i => some i
           | none => st.toolCallId) := by
  induction parts using List.reverseRecOn with
  | nil => simp
  | append_singleton l p ih =>
      obtain ⟨h1, h2, h3⟩ := ih
      rw [List.foldl_append]
      cases p with
      | text v =>
          simp [processPart, h1, h2, h3, partTexts, partToolCalls, partResultId]
      | toolCall callId name input =>
          simp [processPart, h1, h2, h3, partTexts, partToolCalls, partResultId]
      | toolResult callId content =>
          simp [processPart, h1, h2, h3, partTexts, partToolCalls, partResultId]

/-- C1: `convertMessages` maps a host message whose role has the
numeric 'user' value 1 to a remote message with role `user` and every
other role to `assistant`; no output message ever has role `system`. -/
theorem convertMessages_role_mapping (msgs : List ChatMessage) (i : Nat)
    (hi : i < msgs.length) :
    ∃ v0msg : V0ChatMessage,
      (convertMessages msgs)[i]? = some v0msg ∧
      v0msg.role =
        (if msgs[i].role = 1 then V0Role.user else V0Role.assistant) ∧
      v0msg.role ≠ V0Role.system := by
  refine ⟨convertMessage msgs[i], ?_, ?_, ?_⟩
  · simp [convertMessages, List.getElem?_map, List.getElem?_eq_getElem hi]
  · simp [convertMessage]
  · simp only [convertMessage]
    split <;> simp

/-- C1 witness: at a two-message history with roles 1 and 2, message 0
maps to role `user`. -/
theorem convertMessages_role_mapping_witness :
    ∃ v0msg : V0ChatMessage,
      (convertMessages [⟨1, []⟩, ⟨2, [ChatPart.text "hi"]⟩])[0]? = some v0msg ∧
      v0msg.role =
        (if ([⟨1, []⟩, ⟨2, [ChatPart.text "hi"]⟩] :
            List ChatMessage)[0].role = 1
         then V0Role.user else V0Role.assistant) ∧
      v0msg.role ≠ V0Role.system :=
  convertMessages_role_mapping [⟨1, []⟩, ⟨2, [ChatPart.text "hi"]⟩] 0
    (by decide)

/-- C2: `convertMessages` yields exactly one remote message per input
message, in order, and the i-th output's content is the separator-free
concatenation, in encounter order, of the i-th input's text-part
payloads and tool-result text contents. -/
theorem convertMessages_content_spec (msgs : List ChatMessage) (i : Nat)
    (hi : i < msgs.length) :
    (convertMessages msgs).length = msgs.length ∧
    ∃ v0msg : V0ChatMessage,
      (convertMessages msgs)[i]? = some v0msg ∧
      v0msg.content = String.join ((msgs[i].content.map partTexts).flatten) := by
  refine ⟨by simp [convertMessages], convertMessage msgs[i], ?_, ?_⟩
  · simp [convertMessages, List.getElem?_map, List.getElem?_eq_getElem hi]
  · simp [convertMessage, (foldl_processPart msgs[i].content ⟨[], [], none⟩).1]

/-- C2 witness: a message mixing a text part, a tool call and a
tool result flattens to the in-order concatenation of its texts. -/
theorem convertMessages_content_spec_witness :
    (convertMessages [⟨1, [ChatPart.text "a",
        ChatPart.toolCall "c1" "f" Json.null,
        ChatPart.toolResult "c1" [ToolResultChunk.withValue "b",
          ToolResultChunk.withoutValue, ToolResultChunk.withValue "c"]]⟩]).length
      = 1 ∧
    ∃ v0msg : V0ChatMessage,
      (convertMessages [⟨1, [ChatPart.text "a",
          ChatPart.toolCall "c1" "f" Json.null,
          ChatPart.toolResult "c1" [ToolResultChunk.withValue "b",
            ToolResultChunk.withoutValue, ToolResultChunk.withValue "c"]]⟩])[0]?
        = some v0msg ∧
      v0msg.content = String.join
        ((([⟨1, [ChatPart.text "a",
            ChatPart.toolCall "c1" "f" Json.null,
            ChatPart.toolResult "c1" [ToolResultChunk.withValue "b",
              ToolResultChunk.withoutValue, ToolResultChunk.withValue "c"]]⟩] :
          List ChatMessage)[0].content.map partTexts).flatten) :=
  convertMessages_content_spec _ 0 (by decide)

/-- C3 counterexample: for a message whose only tool-result part has
the empty string as call id, the source's truthiness guard
(`if (toolCallId)`) drops the field, so `tool_call_id` is absent even
though the last tool-result part's call id exists (it is `""`): the
claimed unconditional equality fails. -/
theorem convertMessage_tool_call_id_counterexample :
    (convertMessage ⟨1, [ChatPart.toolResult "" []]⟩).tool_call_id = none ∧
    ((⟨1, [ChatPart.toolResult "" []]⟩ : ChatMessage).content.filterMap
        partResultId).getLast? = some "" ∧
    (convertMessage ⟨1, [ChatPart.toolResult "" []]⟩).tool_call_id ≠
      some "" := by
  refine ⟨by decide, by decide, by decide⟩

/-- C3 (amended): `convertMessages` accumulates all tool-call parts, in
encounter order, into `tool_calls`, omitting the field entirely when
the message has zero tool-call parts; `tool_call_id` equals the call id
of the last tool-result part encountered when that id is non-empty, and
is absent when there is no tool-result part or the last one's call id
is the empty string.  In particular a message containing only one
tool-result part with non-empty call id yields that id and the
result's extracted text. -/
theorem convertMessage_toolCalls_spec (m : ChatMessage) :
    (convertMessage m).tool_calls =
      (if (m.content.map partToolCalls).flatten.isEmpty then none
       else some (m.content.map partToolCalls).flatten) ∧
    (convertMessage m).tool_call_id =
      (match (m.content.filterMap partResultId).getLast? with
       | some cid => if cid = "" then none else some cid
       | none => none) ∧
    (∀ cid chunks, m.content = [ChatPart.toolResult cid chunks] → cid ≠ "" →
      (convertMessage m).tool_call_id = some cid ∧
      (convertMessage m).content = String.join (resultTexts chunks)) := by
  obtain ⟨h1, h2, h3⟩ := foldl_processPart m.content ⟨[], [], none⟩
  refine ⟨?_, ?_, ?_⟩
  · simp only [convertMessage, h2, List.nil_append]
    rcases hfl : (m.content.map partToolCalls).flatten with _ | ⟨x, xs⟩ <;>
      simp
  · simp only [convertMessage, h3]
    rcases hlast : (m.content.filterMap partResultId).getLast? with _ | cid
    · simp
    · simp [String.isEmpty_iff]
  · intro cid chunks hcontent hcid
    constructor
    · simp [convertMessage, hcontent, processPart, String.isEmpty_iff, hcid]
    · simp [convertMessage, hcontent, processPart, partTexts]

/-- C3 witness: a message with one tool call and one tool result with
non-empty call id carries the accumulated tool call and that id. -/
theorem convertMessage_toolCalls_spec_witness :
    (convertMessage ⟨2, [ChatPart.toolResult "id1"
        [ToolResultChunk.withValue "out"]]⟩).tool_call_id = some "id1" ∧
    (convertMessage ⟨2, [ChatPart.toolResult "id1"
        [ToolResultChunk.withValue "out"]]⟩).content =
      String.join (resultTexts [ToolResultChunk.withValue "out"]) :=
  (convertMessage_toolCalls_spec _).2.2 "id1"
    [ToolResultChunk.withValue "out"] rfl (by decide)

/-- The input payload a remote tool-call record's part carries: the
JSON-parse of the arguments string, or the raw-string wrapper when the
parse fails. -/
def parsedInput (parse : String → Option Json) (tc : V0ToolCall) : Json :=
  match parse tc.function.arguments with
  | some input => input
  | none => Json.obj [("arguments", Json.str tc.function.arguments)]

/-- The tool-call loop of `processV0Response` reports no text parts. -/
theorem processToolCalls_no_text (parse : String → Option Json)
    (tcs : List V0ToolCall) :
    ((tcs.map (processToolCall parse)).flatten).filterMap textValues = [] := by
  induction tcs with
  | nil => rfl
  | cons tc rest ih =>
      simp only [List.map_cons, List.flatten_cons, List.filterMap_append, ih,
        List.append_nil]
      unfold processToolCall
      split
      · rcases parse tc.function.arguments <;> simp [textValues]
      · rfl

/-- The tool-call loop of `processV0Response` reports one tool-call
part per `"function"`-kind record, in order, with the parsed (or
fallen-back) input. -/
theorem processToolCalls_triples (parse : String → Option Json)
    (tcs : List V0ToolCall) :
    ((tcs.map (processToolCall parse)).flatten).filterMap toolCallTriple =
      (tcs.filter fun tc => tc.type == "function").map
        (fun tc => (tc.id, tc.function.name, parsedInput parse tc)) := by
  induction tcs with
  | nil => rfl
  | cons tc rest ih =>
      simp only [List.map_cons, List.flatten_cons, List.filterMap_append, ih,
        List.filter_cons]
      unfold processToolCall
      by_cases htype : tc.type = "function"
      · simp only [htype, if_pos rfl]
        rcases hp : parse tc.function.arguments with _ | input <;>
          simp [toolCallTriple, htype, parsedInput, hp]
      · simp [htype]

/-- C4: `processV0Response` yields exactly one text part when the
content string is non-empty and none when it is empty, and one
tool-call part per `"function"`-kind tool-call record, whose input is
the JSON-parse of the arguments string, falling back to
`\x7b "arguments": <raw string> \x7d` when the parse fails (the function is
total: no exception escapes). -/
theorem processV0Response_spec (parse : String → Option Json)
    (message : V0RespMessage) :
    (processV0Response parse message).filterMap textValues =
      (if message.content = "" then [] else [message.content]) ∧
    (processV0Response parse message).filterMap toolCallTriple =
      ((message.tool_calls.getD []).filter
          (fun tc => tc.type == "function")).map
        (fun tc => (tc.id, tc.function.name, parsedInput parse tc)) := by
  constructor
  · unfold processV0Response
    rcases htc : message.tool_calls with _ | tcs
    · rw [List.filterMap_append]
      by_cases h : message.content = "" <;> simp [h, textValues]
    · rw [List.filterMap_append]
      simp only
      by_cases hlen : 0 < tcs.length
      · rw [if_pos hlen, processToolCalls_no_text]
        by_cases h : message.content = "" <;> simp [h, textValues]
      · rw [if_neg hlen]
        by_cases h : message.content = "" <;> simp [h, textValues]
  · unfold processV0Response
    rw [List.filterMap_append]
    have hpre : (if message.content = "" then ([] : List ResponsePart)
        else [.text message.content]).filterMap toolCallTriple = [] := by
      by_cases h : message.content = "" <;> simp [h, toolCallTriple]
    rw [hpre, List.nil_append]
    rcases htc : message.tool_calls with _ | tcs
    · rfl
    · simp only [Option.getD_some]
      by_cases hlen : 0 < tcs.length
      · rw [if_pos hlen]
        exact processToolCalls_triples parse tcs
      · rw [if_neg hlen]
        rcases tcs with _ | ⟨t, ts⟩
        · rfl
        · exact absurd (by simp) hlen

/-- C5: on a non-2xx HTTP status, `makeV0Request` fails with a
`RequestError` carrying the status, status text and full response body
text, and the generation call surfaces exactly one text part beginning
`Error: ` and containing the status code, instead of propagating the
exception. -/
theorem makeV0Request_error_surfaced (apiKey : Option String)
    (modelId : String) (messages : List ChatMessage)
    (tools : Option (List LMChatTool)) (toolMode : Nat)
    (parse : String → Option Json) (http : HttpResponse)
    (hkey : keyMissing apiKey = false)
    (hstatus : ¬(200 ≤ http.status ∧ http.status ≤ 299)) :
    (makeV0Request modelId (convertMessages messages) tools toolMode
        http).2 =
      Except.error ⟨http.status, http.statusText, http.bodyText⟩ ∧
    ∃ rest : String,
      provideLanguageModelChatResponse apiKey modelId messages tools
          toolMode parse http =
        [ResponsePart.text ("Error: " ++ rest)] ∧
      ∃ a b : String,
        "Error: " ++ rest = a ++ toString http.status ++ b := by
  have hok : http.ok = false := by
    simp only [HttpResponse.ok, Bool.and_eq_false_iff, decide_eq_false_iff_not]
    omega
  constructor
  · simp [makeV0Request, hok]
  · refine ⟨RequestError.message ⟨http.status, http.statusText,
      http.bodyText⟩, ?_, ?_⟩
    · simp [provideLanguageModelChatResponse, hkey, makeV0Request, hok]
    · refine ⟨"Error: v0 API request failed: ",
        " " ++ http.statusText ++ " - " ++ http.bodyText, ?_⟩
      simp only [RequestError.message, ← String.append_assoc]
      simp

/-- C5 witness: a 404 response with body text surfaces as a single
`Error: ` text part mentioning 404. -/
theorem makeV0Request_error_surfaced_witness :
    (makeV0Request "v0-1.5-md" (convertMessages []) none 1
        ⟨404, "Not Found", "missing", none⟩).2 =
      Except.error ⟨404, "Not Found", "missing"⟩ ∧
    ∃ rest : String,
      provideLanguageModelChatResponse (some "key") "v0-1.5-md" [] none 1
          (fun _ => none) ⟨404, "Not Found", "missing", none⟩ =
        [ResponsePart.text ("Error: " ++ rest)] ∧
      ∃ a b : String, "Error: " ++ rest = a ++ toString (404 : Nat) ++ b :=
  makeV0Request_error_surfaced (some "key") "v0-1.5-md" [] none 1
    (fun _ => none) ⟨404, "Not Found", "missing", none⟩ (by decide)
    (by decide)

/-- C6: the request body carries the model id, the translated messages
and the fixed 64000 output-token ceiling; `tools` and `tool_choice` are
present exactly when a non-empty tool list is supplied, and the
tool-choice directive is `required` for mode `Required` (2) and `auto`
for mode `Auto` (1) and for any unrecognized mode. -/
theorem makeV0RequestBody_spec (modelId : String)
    (messages : List V0ChatMessage) (tools : Option (List LMChatTool))
    (toolMode : Nat) :
    (makeV0RequestBody modelId messages tools toolMode).model = modelId ∧
    (makeV0RequestBody modelId messages tools toolMode).messages =
      messages ∧
    (makeV0RequestBody modelId messages tools toolMode).max_completion_tokens
      = 64000 ∧
    (makeV0RequestBody modelId messages tools toolMode).tools =
      (match tools with
       | some ts =>
           if ts.isEmpty then none else some (convertToolsToV0Format ts)
       | none => none) ∧
    (makeV0RequestBody modelId messages tools toolMode).tool_choice =
      (match tools with
       | some ts =>
           if ts.isEmpty then none else some (convertToolMode toolMode)
       | none => none) ∧
    (∀ mode : Nat, convertToolMode mode =
      if mode = ToolModeRequired then "required" else "auto") := by
  refine ⟨?_, ?_, ?_, ?_, ?_, ?_⟩
  · rcases tools with _ | ts
    · rfl
    · simp only [makeV0RequestBody]
      split <;> rfl
  · rcases tools with _ | ts
    · rfl
    · simp only [makeV0RequestBody]
      split <;> rfl
  · rcases tools with _ | ts
    · rfl
    · simp only [makeV0RequestBody]
      split <;> rfl
  · rcases tools with _ | ts
    · rfl
    · rcases ts with _ | ⟨t, rest⟩ <;> simp [makeV0RequestBody]
  · rcases tools with _ | ts
    · rfl
    · rcases ts with _ | ⟨t, rest⟩ <;> simp [makeV0RequestBody]
  · intro mode
    by_cases h1 : mode = ToolModeAuto
    · subst h1
      simp [convertToolMode, ToolModeAuto, ToolModeRequired]
    · by_cases h2 : mode = ToolModeRequired
      · subst h2
        simp [convertToolMode, ToolModeAuto, ToolModeRequired]
      · simp [convertToolMode, h1, h2]

/-- C7: listing models returns the empty sequence in the silent case
when the stored credential is missing, and otherwise (a key is stored)
returns exactly the two fixed descriptors, `v0-1.5-md` then
`v0-1.5-lg`, with their fixed attributes, regardless of the silent
flag; the listing is a pure function of the stored key and prompt
outcome, with no remote call. -/
theorem provideLanguageModelChatInformation_spec
    (stored keyAfterPrompt : Option String) (silent : Bool) :
    (keyMissing stored = true →
      provideLanguageModelChatInformation true stored keyAfterPrompt = []) ∧
    (keyMissing stored = false →
      provideLanguageModelChatInformation silent stored keyAfterPrompt =
        [{ id := "v0-1.5-md", name := "v0-1.5-md",
           tooltip := "v0 v0-1.5-md - For everyday tasks and UI generation",
           family := "v0", maxInputTokens := 128000,
           maxOutputTokens := 64000, version := "1.5.0",
           toolCalling := true, imageInput := true },
         { id := "v0-1.5-lg", name := "v0-1.5-lg",
           tooltip := "v0 v0-1.5-lg - For advanced thinking or reasoning",
           family := "v0", maxInputTokens := 512000,
           maxOutputTokens := 64000, version := "1.5.0",
           toolCalling := true, imageInput := true }]) := by
  constructor
  · intro h
    simp [provideLanguageModelChatInformation, h]
  · intro h
    simp [provideLanguageModelChatInformation, h, getV0ModelInfo]

/-- C7 witness: with no stored key the silent listing is empty; with a
stored key the two fixed descriptors are returned. -/
theorem provideLanguageModelChatInformation_spec_witness :
    provideLanguageModelChatInformation true none none = [] ∧
    provideLanguageModelChatInformation false (some "v0_key") none =
      [{ id := "v0-1.5-md", name := "v0-1.5-md",
         tooltip := "v0 v0-1.5-md - For everyday tasks and UI generation",
         family := "v0", maxInputTokens := 128000,
         maxOutputTokens := 64000, version := "1.5.0",
         toolCalling := true, imageInput := true },
       { id := "v0-1.5-lg", name := "v0-1.5-lg",
         tooltip := "v0 v0-1.5-lg - For advanced thinking or reasoning",
         family := "v0", maxInputTokens := 512000,
         maxOutputTokens := 64000, version := "1.5.0",
         toolCalling := true, imageInput := true }] :=
  ⟨(provideLanguageModelChatInformation_spec none none true).1 (by decide),
   (provideLanguageModelChatInformation_spec (some "v0_key") none
      false).2 (by decide)⟩

/-- C8: the token estimate is the character count of the extracted
text divided by 4 rounded up (the least `n` with `length ≤ 4 * n`),
with `estimateTokens "abcd" = 1`, `estimateTokens "" = 0`, and `1` for
a message with two text parts `"ab"` and `"cd"` (the texts are
concatenated before the length is taken). -/
theorem provideTokenCount_spec (t : String ⊕ ChatMessage) :
    (extractedLen t ≤ 4 * provideTokenCount t ∧
     ∀ n : Nat, extractedLen t ≤ 4 * n → provideTokenCount t ≤ n) ∧
    provideTokenCount (Sum.inl "abcd") = 1 ∧
    provideTokenCount (Sum.inl "") = 0 ∧
    provideTokenCount
      (Sum.inr ⟨1, [ChatPart.text "ab", ChatPart.text "cd"]⟩) = 1 := by
  refine ⟨⟨?_, ?_⟩, by decide, by decide, by decide⟩
  · rcases t with s | m <;> simp only [provideTokenCount, extractedLen] <;>
      omega
  · intro n hn
    rcases t with s | m <;> simp only [provideTokenCount, extractedLen] <;>
      simp only [extractedLen] at hn <;> omega

/-- C8 witness: a five-character string needs at most two tokens. -/
theorem provideTokenCount_spec_witness :
    provideTokenCount (Sum.inl "abcde") ≤ 2 :=
  (provideTokenCount_spec (Sum.inl "abcde")).1.2 2 (by decide)

/-- C9: a generation call made while no API key is stored reports a
single text part stating the key is not configured and returns
normally; the result does not depend on any HTTP exchange (none is
issued). -/
theorem provideResponse_missing_key (apiKey : Option String)
    (modelId : String) (messages : List ChatMessage)
    (tools : Option (List LMChatTool)) (toolMode : Nat)
    (parse : String → Option Json) (http http' : HttpResponse)
    (hkey : keyMissing apiKey = true) :
    provideLanguageModelChatResponse apiKey modelId messages tools
        toolMode parse http =
      [ResponsePart.text ("Error: v0 API key not configured. Please run "
        ++ "the \x27Manage v0 API Key\x27 command.")] ∧
    provideLanguageModelChatResponse apiKey modelId messages tools
        toolMode parse http =
      provideLanguageModelChatResponse apiKey modelId messages tools
        toolMode parse http' := by
  constructor
  · simp only [provideLanguageModelChatResponse, hkey, if_pos]
    simp
  · simp only [provideLanguageModelChatResponse, hkey, if_pos]

/-- C9 witness: with no stored key the configured-key error is the
only reported part, whatever the (never issued) HTTP outcome. -/
theorem provideResponse_missing_key_witness :
    provideLanguageModelChatResponse none "v0-1.5-md" [] none 1
        (fun _ => none) ⟨200, "OK", "", none⟩ =
      [ResponsePart.text ("Error: v0 API key not configured. Please run "
        ++ "the \x27Manage v0 API Key\x27 command.")] ∧
    provideLanguageModelChatResponse none "v0-1.5-md" [] none 1
        (fun _ => none) ⟨200, "OK", "", none⟩ =
      provideLanguageModelChatResponse none "v0-1.5-md" [] none 1
        (fun _ => none) ⟨500, "Internal Server Error", "boom", none⟩ :=
  provideResponse_missing_key none "v0-1.5-md" [] none 1 (fun _ => none)
    ⟨200, "OK", "", none⟩ ⟨500, "Internal Server Error", "boom", none⟩
    (by decide)

/-- C10: when the HTTP request succeeds but the parsed body is null,
has missing or empty `choices`, or a falsy first-choice `message`, the
generation call reports exactly one text part — `Error: No response
from v0 API`, respectively `Error: No response message from v0 API` —
and returns normally. -/
theorem provideResponse_malformed_body (apiKey : Option String)
    (modelId : String) (messages : List ChatMessage)
    (tools : Option (List LMChatTool)) (toolMode : Nat)
    (parse : String → Option Json) (http : HttpResponse)
    (hkey : keyMissing apiKey = false) (hok : http.ok = true) :
    (http.body = none ∨ http.body = some ⟨none⟩ ∨
        http.body = some ⟨some []⟩ →
      provideLanguageModelChatResponse apiKey modelId messages tools
          toolMode parse http =
        [ResponsePart.text "Error: No response from v0 API"]) ∧
    (∀ (c : V0Choice) (rest : List V0Choice),
      http.body = some ⟨some (c :: rest)⟩ → c.message = none →
      provideLanguageModelChatResponse apiKey modelId messages tools
          toolMode parse http =
        [ResponsePart.text "Error: No response message from v0 API"]) := by
  constructor
  · rintro (hbody | hbody | hbody) <;>
      simp [provideLanguageModelChatResponse, hkey, makeV0Request, hok,
        hbody]
  · rintro ⟨cmsg⟩ rest hbody hmsg
    subst hmsg
    simp [provideLanguageModelChatResponse, hkey, makeV0Request, hok,
      hbody]

/-- C10 witness: a 200 response with a null body yields the
no-response error; one whose first choice lacks a message yields the
no-response-message error. -/
theorem provideResponse_malformed_body_witness :
    provideLanguageModelChatResponse (some "key") "v0-1.5-md" [] none 1
        (fun _ => none) ⟨200, "OK", "null", none⟩ =
      [ResponsePart.text "Error: No response from v0 API"] ∧
    provideLanguageModelChatResponse (some "key") "v0-1.5-md" [] none 1
        (fun _ => none) ⟨200, "OK", "", some ⟨some [⟨none⟩]⟩⟩ =
      [ResponsePart.text "Error: No response message from v0 API"] :=
  ⟨(provideResponse_malformed_body (some "key") "v0-1.5-md" [] none 1
      (fun _ => none) ⟨200, "OK", "null", none⟩ (by decide)
      (by decide)).1 (Or.inl rfl),
   (provideResponse_malformed_body (some "key") "v0-1.5-md" [] none 1
      (fun _ => none) ⟨200, "OK", "", some ⟨some [⟨none⟩]⟩⟩ (by decide)
      (by decide)).2 ⟨none⟩ [] rfl rfl⟩
